import Mathlib

/-!
Shallow embedding of the TPM2 toolkit sources (src/lib/tpm2.h,
src/tools/tpm2_certify.c, src/tools/tpm2_nvdefine.c) for checking the
natural-language specification against the code.

The TPM module itself is an external black box: every module command's
result is modelled as an oracle argument (a `tool_rc` or a raw TSS2 return
code `Nat`) of the embedded flow, and each flow returns a trace recording
which commands it issued with which arguments, alongside its final
`tool_rc`.
-/

/-- Modelled from the spec: the `tool_rc` enumeration of `tpm2_error.h` is
declared outside these sources.  The spec (section 6) fixes the exit-status
taxonomy "success / general error / option error" returned to the process
exit code, so `tool_rc_success` is the zero value of the C enum, followed by
the general and option errors, then the remaining members used by the
sources. -/
inductive tool_rc where
  | success
  | general_error
  | option_error
  | auth_error
  | tcti_error
  | unsupported
deriving DecidableEq, Repr

/-- The integer a `tool_rc` stands for in C (its enum value and the process
exit status). -/
def tool_rc.toCInt : tool_rc → Nat
  | .success => 0
  | .general_error => 1
  | .option_error => 2
  | .auth_error => 3
  | .tcti_error => 4
  | .unsupported => 5

/-- A C `bool` returned from a function whose declared result type is
`tool_rc`: C converts `false` to the integer 0 and `true` to 1, which as
`tool_rc` values are `tool_rc_success` and `tool_rc_general_error`. -/
def tool_rc.ofCBool (b : Bool) : tool_rc :=
  if b then tool_rc.general_error else tool_rc.success

/-! ### TCG algorithm identifiers (TPM2_ALG_ID constants of the standard) -/

def TPM2_ALG_RSA : Nat := 0x0001
def TPM2_ALG_HMAC : Nat := 0x0005
def TPM2_ALG_KEYEDHASH : Nat := 0x0008
def TPM2_ALG_SHA256 : Nat := 0x000B
def TPM2_ALG_RSASSA : Nat := 0x0014
def TPM2_ALG_ECDSA : Nat := 0x0018
def TPM2_ALG_ECC : Nat := 0x0023
def TPM2_ALG_SYMCIPHER : Nat := 0x0025

/-- The single-call digest buffer bound `TPM2_MAX_DIGEST_BUFFER` of the TSS
headers (1024 bytes), the capacity of `TPM2B_MAX_BUFFER.buffer`. -/
def TPM2_MAX_DIGEST_BUFFER : Nat := 1024

/-! ### tpm2_certify.c: set_scheme / certify_and_save_data -/

/-- A `TPMT_SIG_SCHEME` as filled in by `set_scheme`: the scheme algorithm
tag and the hash algorithm of the scheme's details union. -/
structure TPMT_SIG_SCHEME where
  scheme : Nat
  hashAlg : Nat
deriving DecidableEq, Repr

/-- `set_scheme` of src/tools/tpm2_certify.c.  `keyTypeResult` is the
outcome of `get_key_type` (a `tpm2_readpublic` of the signing key): either a
failing `tool_rc` or the key's public type.  The returned pair is the
function's `tool_rc` and the scheme output parameter, `none` meaning the
caller's `TPMT_SIG_SCHEME` was left unwritten.  In the `TPM2_ALG_SYMCIPHER`
/ `default` arm the C source executes `return false;`, a C bool converted
to the declared result type `tool_rc`. -/
def set_scheme (keyTypeResult : Except tool_rc Nat) (halg : Nat) :
    tool_rc × Option TPMT_SIG_SCHEME :=
  match keyTypeResult with
  | .error rc => (rc, none)
  | .ok t =>
    if t = TPM2_ALG_RSA then
      (tool_rc.success, some ⟨TPM2_ALG_RSASSA, halg⟩)
    else if t = TPM2_ALG_KEYEDHASH then
      (tool_rc.success, some ⟨TPM2_ALG_HMAC, halg⟩)
    else if t = TPM2_ALG_ECC then
      (tool_rc.success, some ⟨TPM2_ALG_ECDSA, halg⟩)
    else
      (tool_rc.ofCBool false, none)

/-- Trace of `certify_and_save_data`: whether the `TPM2_Certify` command was
issued, the scheme parameter it was issued with (`none` = the uninitialized
stack value), and the flow's final `tool_rc`. -/
structure CertifyTrace where
  certifyIssued : Bool
  schemeUsed : Option TPMT_SIG_SCHEME
  rc : tool_rc
deriving DecidableEq, Repr

/-- `certify_and_save_data` of src/tools/tpm2_certify.c.  Oracles:
`keyTypeResult` feeds `set_scheme`, `certifyRc` is the result of
`tpm2_certify`, `attestSaveOk` and `sigSaveOk` the results of the two file
saves.  On a failed save the C `goto out` returns the `rc` variable, which
at that point still holds `tpm2_certify`'s successful result. -/
def certify_and_save_data (keyTypeResult : Except tool_rc Nat) (halg : Nat)
    (certifyRc : tool_rc) (attestSaveOk sigSaveOk : Bool) : CertifyTrace :=
  let p := set_scheme keyTypeResult halg
  if p.1 ≠ tool_rc.success then
    ⟨false, none, p.1⟩
  else if certifyRc ≠ tool_rc.success then
    ⟨true, p.2, certifyRc⟩
  else if ¬attestSaveOk then
    ⟨true, p.2, certifyRc⟩
  else if ¬sigSaveOk then
    ⟨true, p.2, certifyRc⟩
  else
    ⟨true, p.2, tool_rc.success⟩

/-! ### tpm2_certify.c (hmac tool part): tpm_hmac_file -/

/-- The `while (!done)` loop of `tpm_hmac_file` in its known-file-size form
(`use_left` true; entered only when the size exceeds
`TPM2_MAX_DIGEST_BUFFER`): each iteration `fread`s up to
`TPM2_MAX_DIGEST_BUFFER` bytes and issues a sequence-update with them; the
loop ends once the bytes still unread (`left`) are at most
`TPM2_MAX_DIGEST_BUFFER`, and those remaining bytes are then read for the
terminal sequence-complete call.  Returns (update chunks, complete chunk). -/
def hmacKnownLoop (rem : List Nat) : List (List Nat) × List Nat :=
  if h : (rem.drop TPM2_MAX_DIGEST_BUFFER).length ≤ TPM2_MAX_DIGEST_BUFFER then
    ([rem.take TPM2_MAX_DIGEST_BUFFER], rem.drop TPM2_MAX_DIGEST_BUFFER)
  else
    let p := hmacKnownLoop (rem.drop TPM2_MAX_DIGEST_BUFFER)
    (rem.take TPM2_MAX_DIGEST_BUFFER :: p.1, p.2)
termination_by rem.length
decreasing_by
  simp only [List.length_drop, TPM2_MAX_DIGEST_BUFFER] at h ⊢
  omega

/-- The `while (!done)` loop of `tpm_hmac_file` in its unknown-file-size
form (`use_left` false, the input is a fifo): each iteration `fread`s up to
`TPM2_MAX_DIGEST_BUFFER` bytes and issues a sequence-update with them
(possibly empty at end of file); the loop ends when `feof` is set, i.e.
when the `fread` returned fewer bytes than the requested
`TPM2_MAX_DIGEST_BUFFER`.  Returns the update chunks; the complete chunk of
this path is empty (`data.size = 0`). -/
def hmacUnknownLoop (rem : List Nat) : List (List Nat) :=
  if h : rem.length < TPM2_MAX_DIGEST_BUFFER then
    [rem.take TPM2_MAX_DIGEST_BUFFER]
  else
    rem.take TPM2_MAX_DIGEST_BUFFER :: hmacUnknownLoop (rem.drop TPM2_MAX_DIGEST_BUFFER)
termination_by rem.length
decreasing_by
  simp only [List.length_drop, TPM2_MAX_DIGEST_BUFFER] at h ⊢
  omega

/-- Trace of the TPM commands `tpm_hmac_file` issues: how many single-shot
`TPM2_HMAC` calls and with what data, how many `HMAC_Start` sequence starts,
the data of each `SequenceUpdate`, and the data of each
`SequenceComplete`. -/
structure HmacTrace where
  singleCalls : Nat
  singleData : Option (List Nat)
  startCalls : Nat
  updateChunks : List (List Nat)
  completeChunks : List (List Nat)
deriving DecidableEq, Repr

/-- `tpm_hmac_file` of the hmac tool source.  `sizeKnown` is the result of
`files_get_file_size` (false for a fifo); when it holds, the queried size is
`input.length`.  If the size is known and at most `TPM2_MAX_DIGEST_BUFFER`,
a single `tpm2_hmac` call is issued with the whole input; otherwise a
sequence is started and the input is streamed through update calls followed
by one complete call. -/
def tpm_hmac_file (sizeKnown : Bool) (input : List Nat) : HmacTrace :=
  if sizeKnown = true ∧ input.length ≤ TPM2_MAX_DIGEST_BUFFER then
    ⟨1, some input, 0, [], []⟩
  else if sizeKnown = true then
    let p := hmacKnownLoop input
    ⟨0, none, 1, p.1, [p.2]⟩
  else
    ⟨0, none, 1, hmacUnknownLoop input, [[]]⟩

/-! ### tpm2_nvdefine.c: nv_space_define -/

/-- The `TPMS_NV_PUBLIC` fields `nv_space_define` fills in before issuing
`tpm2_nv_definespace`. -/
structure NvPublicArea where
  nvIndex : Nat
  nameAlg : Nat
  attributes : Nat
  authPolicy : List Nat
  dataSize : Nat
deriving DecidableEq, Repr

/-- Trace of `nv_space_define`: whether the size-0 warning was logged,
how many `TPM2_NV_DefineSpace` commands were issued and with which public
area, whether the (inverted) "Success to define" info line was logged, and
the function's `tool_rc`. -/
structure NvDefineTrace where
  warnedSizeZero : Bool
  defineCalls : Nat
  issued : Option NvPublicArea
  loggedSuccessInfo : Bool
  rc : tool_rc
deriving DecidableEq, Repr

/-- Modelled from the spec: `files_load_bytes_from_path` is one of the
out-of-scope "file I/O helpers for reading/writing raw byte buffers"; per
the spec's NV-define flow it loads the policy file's bytes into the digest
buffer, rejecting files larger than the buffer capacity passed in.  `true`
exactly when the file fits. -/
def files_load_bytes_ok (bytes : List Nat) (cap : Nat) : Bool :=
  decide (bytes.length ≤ cap)

/-- `nv_space_define` of src/tools/tpm2_nvdefine.c.  `size` is `ctx.size`,
`policyFile` the contents of `ctx.policy_file` when one was given,
`cap` the capacity `BUFFER_SIZE(TPM2B_DIGEST, buffer)` of the policy digest
buffer, and `defineRc` the oracle result of `tpm2_nv_definespace`.  The C
source logs `LOG_INFO("Success to define ...")` in the branch where the
define command's result is NOT `tool_rc_success`, yet still returns that
result unchanged. -/
def nv_space_define (nvIndex attributes size : Nat)
    (policyFile : Option (List Nat)) (cap : Nat) (defineRc : tool_rc) :
    NvDefineTrace :=
  let warned := decide (size = 0)
  match policyFile with
  | none =>
      ⟨warned, 1, some ⟨nvIndex, TPM2_ALG_SHA256, attributes, [], size⟩,
        decide (defineRc ≠ tool_rc.success), defineRc⟩
  | some bytes =>
      if files_load_bytes_ok bytes cap then
        ⟨warned, 1, some ⟨nvIndex, TPM2_ALG_SHA256, attributes, bytes, size⟩,
          decide (defineRc ≠ tool_rc.success), defineRc⟩
      else
        ⟨warned, 0, none, false, tool_rc.general_error⟩

/-- The policy-file step of `nv_space_define` succeeds: either no policy
file was given, or its bytes fit in the digest buffer. -/
def policy_load_ok (policyFile : Option (List Nat)) (cap : Nat) : Bool :=
  match policyFile with
  | none => true
  | some bytes => files_load_bytes_ok bytes cap

/-! ### activate-credential tool: read_cert_secret -/

/-- Reads `n` bytes off the front of a byte stream, failing if fewer are
available (the common behavior of the `files_read_*` helpers). -/
def readN (n : Nat) (bs : List Nat) : Option (List Nat × List Nat) :=
  if n ≤ bs.length then some (bs.take n, bs.drop n) else none

/-- Big-endian value of a byte list. -/
def beNat (bs : List Nat) : Nat :=
  bs.foldl (fun a b => a * 256 + b) 0

/-- Modelled from the spec: `files_read_header` (a file I/O helper outside
these sources) reads the leading `[u32 version]` of the credential-file
layout given in the spec's External Interfaces section, in the toolkit's
big-endian wire order. -/
def files_read_header (bs : List Nat) : Option (Nat × List Nat) :=
  (readN 4 bs).map fun p => (beNat p.1, p.2)

/-- Modelled from the spec: `files_read_16` reads one big-endian `u16` size
field of the credential-file layout. -/
def files_read_16 (bs : List Nat) : Option (Nat × List Nat) :=
  (readN 2 bs).map fun p => (beNat p.1, p.2)

/-- Modelled from the spec: `files_read_bytes` reads exactly `n` raw bytes. -/
def files_read_bytes (n : Nat) (bs : List Nat) : Option (List Nat × List Nat) :=
  readN n bs

/-- `read_cert_secret` of the activate-credential tool source: version
header first, a hard failure unless it equals 1, then the u16 credential
size, the credential bytes, the u16 secret size and the secret bytes, in
that order.  Returns the credential and secret byte strings. -/
def read_cert_secret (bs : List Nat) : Option (List Nat × List Nat) :=
  (files_read_header bs).bind fun p =>
    if p.1 = 1 then
      (files_read_16 p.2).bind fun q =>
        (files_read_bytes q.1 q.2).bind fun c =>
          (files_read_16 c.2).bind fun s =>
            (files_read_bytes s.1 s.2).map fun t => (c.1, t.1)
    else none

/-- Big-endian encoding of a `u32`. -/
def u32be (n : Nat) : List Nat :=
  [n / 2 ^ 24 % 256, n / 2 ^ 16 % 256, n / 256 % 256, n % 256]

/-- Big-endian encoding of a `u16`. -/
def u16be (n : Nat) : List Nat :=
  [n / 256 % 256, n % 256]

/-! ### activate-credential tool: activate_credential_and_output and the
option gate of its tpm2_tool_onrun -/

/-- Trace of `activate_credential_and_output`: how many policy sessions the
flow opened via `tpm2_session_open` and how many it closed via
`tpm2_session_close`, plus its final `tool_rc`. -/
structure ActivateTrace where
  sessionsOpened : Nat
  sessionsClosed : Nat
  rc : tool_rc
deriving DecidableEq, Repr

/-- `activate_credential_and_output` of the activate-credential tool
source.  Oracles, in program order: `dataOk` is `tpm2_session_data_new`
succeeding (on `oom` the C executes `return false;`), `openRc` the result
of `tpm2_session_open`, `endorseShandleRc` the `tpm2_auth_util_get_shandle`
for the endorsement hierarchy, `policySecretRval` the raw TSS2 code of
`Esys_PolicySecret` (0 = success), `keyShandleRc` the second get_shandle,
`activateRval` the raw code of `Esys_ActivateCredential`, `outputOk` the
result of `output_and_save`, and `fromTpm` the `tool_rc_from_tpm`
conversion of raw codes.  `rc` starts as `tool_rc_general_error`; every
path reached after a successful open runs `tpm2_session_close` via the
`out_session` label. -/
def activate_credential_and_output (dataOk : Bool) (openRc : tool_rc)
    (endorseShandleRc : tool_rc) (policySecretRval : Nat)
    (keyShandleRc : tool_rc) (activateRval : Nat) (outputOk : Bool)
    (fromTpm : Nat → tool_rc) : ActivateTrace :=
  if ¬dataOk then
    ⟨0, 0, tool_rc.ofCBool false⟩
  else if openRc ≠ tool_rc.success then
    ⟨0, 0, openRc⟩
  else if endorseShandleRc ≠ tool_rc.success then
    ⟨1, 1, endorseShandleRc⟩
  else if policySecretRval ≠ 0 then
    ⟨1, 1, fromTpm policySecretRval⟩
  else if keyShandleRc ≠ tool_rc.success then
    ⟨1, 1, keyShandleRc⟩
  else if activateRval ≠ 0 then
    ⟨1, 1, fromTpm activateRval⟩
  else if ¬outputOk then
    ⟨1, 1, tool_rc.general_error⟩
  else
    ⟨1, 1, tool_rc.success⟩

/-- Outcome of the option check at the top of the activate-credential
tool's `tpm2_tool_onrun`: the early result if the gate fired, and whether
control went on to the `tpm2_util_object_load` of the credentialed key. -/
structure OnrunGate where
  earlyResult : Option tool_rc
  loadAttempted : Bool
deriving DecidableEq, Repr

/-- The option gate of the activate-credential tool's `tpm2_tool_onrun`:
`if ((!ctx.credentialed_key_arg) && (!ctx.key.credential_key_arg) &&
!ctx.flags.i && !ctx.flags.o) return tool_rc_option_error;` — the error
fires only when all four of the credentialed-key context, credential-key
context, input credential and output file are absent. -/
def actcred_tool_onrun
    (hasCredentialedKey hasCredentialKey hasInput hasOutputFile : Bool) :
    OnrunGate :=
  if !hasCredentialedKey && !hasCredentialKey && !hasInput && !hasOutputFile
  then ⟨some tool_rc.option_error, false⟩
  else ⟨none, true⟩

/-! ### tpm2_ctx_mgmt.c: tpm2_ctx_mgmt_evictcontrol -/

/-- Trace of `tpm2_ctx_mgmt_evictcontrol`: whether the newly returned
object handle was closed via `tpm2_close`, what was stored through the
caller's `out_tr` pointer, and the function's `tool_rc`. -/
structure EvictTrace where
  closedNewHandle : Bool
  stored : Option Nat
  rc : tool_rc
deriving DecidableEq, Repr

/-- `tpm2_ctx_mgmt_evictcontrol` of the context-management source in
src/lib/tpm2.h's compilation unit.  Oracles: `shandleRc` is the
`tpm2_auth_util_get_shandle` result, `evictRval` the raw TSS2 code of
`Esys_EvictControl` (0 = success) with `newHandle` its output handle,
`outTrGiven` whether the caller passed a non-null `out_tr` pointer,
`fromTpm` the `tool_rc_from_tpm` conversion and `closeRc` the result of
`tpm2_close`. -/
def tpm2_ctx_mgmt_evictcontrol (shandleRc : tool_rc) (evictRval : Nat)
    (newHandle : Nat) (outTrGiven : Bool) (fromTpm : Nat → tool_rc)
    (closeRc : tool_rc) : EvictTrace :=
  if shandleRc ≠ tool_rc.success then
    ⟨false, none, shandleRc⟩
  else if evictRval ≠ 0 then
    ⟨false, none, fromTpm evictRval⟩
  else if outTrGiven then
    ⟨false, some newHandle, tool_rc.success⟩
  else
    ⟨true, none, closeRc⟩

/-! ## Theorems -/

theorem hmacKnownLoop_spec (rem : List Nat) :
    (hmacKnownLoop rem).1.flatten ++ (hmacKnownLoop rem).2 = rem ∧
    (∀ c ∈ (hmacKnownLoop rem).1, c.length ≤ TPM2_MAX_DIGEST_BUFFER) ∧
    (hmacKnownLoop rem).2.length ≤ TPM2_MAX_DIGEST_BUFFER := by
  induction rem using hmacKnownLoop.induct with
  | case1 x h =>
    rw [hmacKnownLoop]
    simp only [dif_pos h]
    refine ⟨by simp, ?_, h⟩
    intro c hc
    simp only [List.mem_singleton] at hc
    subst hc
    exact List.length_take_le _ _
  | case2 x h ih =>
    rw [hmacKnownLoop]
    simp only [dif_neg h]
    refine ⟨?_, ?_, ih.2.2⟩
    · simp only [List.flatten_cons, List.append_assoc, ih.1]
      exact List.take_append_drop _ _
    · intro c hc
      simp only [List.mem_cons] at hc
      rcases hc with hc | hc
      · subst hc
        exact List.length_take_le _ _
      · exact ih.2.1 c hc

theorem hmacUnknownLoop_spec (rem : List Nat) :
    (hmacUnknownLoop rem).flatten = rem ∧
    ∀ c ∈ hmacUnknownLoop rem, c.length ≤ TPM2_MAX_DIGEST_BUFFER := by
  induction rem using hmacUnknownLoop.induct with
  | case1 x h =>
    rw [hmacUnknownLoop]
    simp only [dif_pos h]
    refine ⟨by simp [List.take_of_length_le (le_of_lt h)], ?_⟩
    intro c hc
    simp only [List.mem_singleton] at hc
    subst hc
    exact List.length_take_le _ _
  | case2 x h ih =>
    rw [hmacUnknownLoop]
    simp only [dif_neg h]
    refine ⟨?_, ?_⟩
    · simp only [List.flatten_cons, ih.1]
      exact List.take_append_drop _ _
    · intro c hc
      simp only [List.mem_cons] at hc
      rcases hc with hc | hc
      · subst hc
        exact List.length_take_le _ _
      · exact ih.2 c hc

theorem files_read_header_cons (b0 b1 b2 b3 : Nat) (rest : List Nat) :
    files_read_header (b0 :: b1 :: b2 :: b3 :: rest) =
      some (beNat [b0, b1, b2, b3], rest) := by
  have h4 : 4 ≤ (b0 :: b1 :: b2 :: b3 :: rest).length := by
    simp only [List.length_cons]
    omega
  simp only [files_read_header, readN, if_pos h4, Option.map_some']
  rfl

theorem files_read_16_u16be (n : Nat) (rest : List Nat) (h : n < 65536) :
    files_read_16 (u16be n ++ rest) = some (n, rest) := by
  have h2 : 2 ≤ (u16be n ++ rest).length := by
    simp [u16be]
  have hcons : u16be n ++ rest = (n / 256 % 256) :: (n % 256) :: rest := rfl
  rw [hcons] at h2 ⊢
  simp only [files_read_16, readN, if_pos h2, Option.map_some']
  have htake : List.take 2 ((n / 256 % 256) :: (n % 256) :: rest) =
      [n / 256 % 256, n % 256] := rfl
  have hdrop : List.drop 2 ((n / 256 % 256) :: (n % 256) :: rest) = rest := rfl
  rw [htake, hdrop]
  have hval : beNat [n / 256 % 256, n % 256] = n := by
    simp only [beNat, List.foldl]
    omega
  rw [hval]

theorem files_read_bytes_exact (l rest : List Nat) :
    files_read_bytes l.length (l ++ rest) = some (l, rest) := by
  have hl : l.length ≤ (l ++ rest).length := by simp
  simp only [files_read_bytes, readN, if_pos hl, List.take_left, List.drop_left]

/-- C4: credential-file decoding fails for every file whose leading 4-byte
version header is not 1, for any bytes that follow (so for any declared
size value, and without reading any further field); a version-1 file is
decoded as a big-endian u16 credential size, that many credential bytes, a
u16 secret size, then that many secret bytes, in that order. -/
theorem read_cert_secret_spec :
    (∀ b0 b1 b2 b3 : Nat, ∀ rest : List Nat,
      beNat [b0, b1, b2, b3] ≠ 1 →
        read_cert_secret (b0 :: b1 :: b2 :: b3 :: rest) = none) ∧
    (∀ cred secret : List Nat,
      cred.length < 65536 → secret.length < 65536 →
        read_cert_secret
          (u32be 1 ++ (u16be cred.length ++ (cred ++ (u16be secret.length ++ secret)))) =
          some (cred, secret)) := by
  constructor
  · intro b0 b1 b2 b3 rest hv
    simp only [read_cert_secret, files_read_header_cons, Option.some_bind]
    rw [if_neg hv]
  · intro cred secret hc hs
    have hu32 : u32be 1 ++ (u16be cred.length ++ (cred ++ (u16be secret.length ++ secret))) =
        0 :: 0 :: 0 :: 1 :: (u16be cred.length ++ (cred ++ (u16be secret.length ++ secret))) := rfl
    rw [hu32]
    simp only [read_cert_secret, files_read_header_cons, Option.some_bind]
    have hv1 : beNat [0, 0, 0, 1] = 1 := by decide
    rw [if_pos hv1]
    rw [files_read_16_u16be cred.length _ hc]
    simp only [Option.some_bind]
    rw [files_read_bytes_exact cred (u16be secret.length ++ secret)]
    simp only [Option.some_bind]
    rw [files_read_16_u16be secret.length _ hs]
    simp only [Option.some_bind]
    have hfin : files_read_bytes secret.length secret = some (secret, []) := by
      have := files_read_bytes_exact secret []
      simpa using this
    rw [hfin, Option.map_some']

/-- Witness for C4: a version-2 header is rejected whatever follows, and a
concrete version-1 file decodes to its credential and secret bytes. -/
theorem read_cert_secret_spec_witness :
    read_cert_secret (0 :: 0 :: 0 :: 2 :: [9, 9, 9, 9]) = none ∧
    read_cert_secret
      (u32be 1 ++ (u16be 1 ++ ([7] ++ (u16be 2 ++ [8, 9])))) = some ([7], [8, 9]) := by
  constructor
  · exact read_cert_secret_spec.1 0 0 0 2 [9, 9, 9, 9] (by decide)
  · have h := read_cert_secret_spec.2 [7] [8, 9] (by decide) (by decide)
    simpa using h

/-- C1 (code bug): the claim says a signing key of any type other than RSA,
KEYEDHASH or ECC — in particular SYMCIPHER — makes the certify flow fail
with an unsupported-key-type error and issue no certify command.  The code
instead executes `return false;` in `set_scheme`'s SYMCIPHER/default arm,
which as the declared `tool_rc` result type is the integer 0, i.e.
`tool_rc_success`, so `certify_and_save_data` proceeds and issues the
certify command with the scheme output left unwritten — for every requested
hash algorithm and every outcome of the later steps. -/
theorem set_scheme_symcipher_code_bug (halg : Nat) (certifyRc : tool_rc)
    (attestSaveOk sigSaveOk : Bool) :
    set_scheme (Except.ok TPM2_ALG_SYMCIPHER) halg = (tool_rc.success, none) ∧
    (certify_and_save_data (Except.ok TPM2_ALG_SYMCIPHER) halg certifyRc
        attestSaveOk sigSaveOk).certifyIssued = true ∧
    (certify_and_save_data (Except.ok TPM2_ALG_SYMCIPHER) halg certifyRc
        attestSaveOk sigSaveOk).schemeUsed = none := by
  have h1 : set_scheme (Except.ok TPM2_ALG_SYMCIPHER) halg = (tool_rc.success, none) := by
    simp [set_scheme, TPM2_ALG_SYMCIPHER, TPM2_ALG_RSA, TPM2_ALG_KEYEDHASH,
      TPM2_ALG_ECC, tool_rc.ofCBool]
  refine ⟨h1, ?_, ?_⟩ <;>
    · simp only [certify_and_save_data, h1]
      split_ifs <;> simp_all

/-- C2: in the streaming path of the HMAC-over-stream flow, no single-shot
call is made, exactly one sequence is started, the update chunks followed
by the single complete chunk concatenate to exactly the input, every chunk
is at most `TPM2_MAX_DIGEST_BUFFER`, the final handed chunk goes to the
complete call, and hence any digest function of the streamed bytes agrees
with the same digest of the whole input. -/
theorem tpm_hmac_file_streaming_chunks (sizeKnown : Bool) (input : List Nat)
    (h : ¬(sizeKnown = true ∧ input.length ≤ TPM2_MAX_DIGEST_BUFFER)) :
    (tpm_hmac_file sizeKnown input).singleCalls = 0 ∧
    (tpm_hmac_file sizeKnown input).startCalls = 1 ∧
    ∃ last : List Nat,
      (tpm_hmac_file sizeKnown input).completeChunks = [last] ∧
      (tpm_hmac_file sizeKnown input).updateChunks.flatten ++ last = input ∧
      (∀ c ∈ (tpm_hmac_file sizeKnown input).updateChunks,
        c.length ≤ TPM2_MAX_DIGEST_BUFFER) ∧
      last.length ≤ TPM2_MAX_DIGEST_BUFFER ∧
      ∀ digestOf : List Nat → List Nat,
        digestOf ((tpm_hmac_file sizeKnown input).updateChunks.flatten ++ last) =
          digestOf input := by
  cases sizeKnown with
  | false =>
    have hu := hmacUnknownLoop_spec input
    have ht : tpm_hmac_file false input = ⟨0, none, 1, hmacUnknownLoop input, [[]]⟩ := by
      simp [tpm_hmac_file]
    rw [ht]
    refine ⟨rfl, rfl, [], rfl, ?_, hu.2, by simp, ?_⟩
    · simpa using hu.1
    · intro digestOf
      simp [hu.1]
  | true =>
    have hlen : ¬input.length ≤ TPM2_MAX_DIGEST_BUFFER := by
      intro hc
      exact h ⟨rfl, hc⟩
    have hk := hmacKnownLoop_spec input
    have ht : tpm_hmac_file true input =
        ⟨0, none, 1, (hmacKnownLoop input).1, [(hmacKnownLoop input).2]⟩ := by
      simp [tpm_hmac_file, hlen]
    rw [ht]
    exact ⟨rfl, rfl, (hmacKnownLoop input).2, rfl, hk.1, hk.2.1, hk.2.2,
      fun digestOf => by rw [hk.1]⟩

/-- Witness for C2 at a concrete unknown-size input. -/
theorem tpm_hmac_file_streaming_chunks_witness :
    (¬((false : Bool) = true ∧ ([1, 2, 3] : List Nat).length ≤ TPM2_MAX_DIGEST_BUFFER)) ∧
    ((tpm_hmac_file false [1, 2, 3]).singleCalls = 0 ∧
     (tpm_hmac_file false [1, 2, 3]).startCalls = 1 ∧
     ∃ last : List Nat,
       (tpm_hmac_file false [1, 2, 3]).completeChunks = [last] ∧
       (tpm_hmac_file false [1, 2, 3]).updateChunks.flatten ++ last = [1, 2, 3] ∧
       (∀ c ∈ (tpm_hmac_file false [1, 2, 3]).updateChunks,
         c.length ≤ TPM2_MAX_DIGEST_BUFFER) ∧
       last.length ≤ TPM2_MAX_DIGEST_BUFFER ∧
       ∀ digestOf : List Nat → List Nat,
         digestOf ((tpm_hmac_file false [1, 2, 3]).updateChunks.flatten ++ last) =
           digestOf [1, 2, 3]) :=
  ⟨by decide, tpm_hmac_file_streaming_chunks false [1, 2, 3] (by decide)⟩

/-- C8: when the input size is known and at most `TPM2_MAX_DIGEST_BUFFER`
(size 0 included), `tpm_hmac_file` issues exactly one single-shot HMAC call
carrying the whole input and uses no sequence start, update or complete
command. -/
theorem tpm_hmac_file_single_call (input : List Nat)
    (h : input.length ≤ TPM2_MAX_DIGEST_BUFFER) :
    tpm_hmac_file true input = ⟨1, some input, 0, [], []⟩ := by
  simp [tpm_hmac_file, h]

/-- Witness for C8 at the empty input. -/
theorem tpm_hmac_file_single_call_witness :
    ([] : List Nat).length ≤ TPM2_MAX_DIGEST_BUFFER ∧
    tpm_hmac_file true [] = ⟨1, some [], 0, [], []⟩ :=
  ⟨by decide, tpm_hmac_file_single_call [] (by decide)⟩

/-- C3: whenever `nv_space_define` reaches the define-space command (the
optional policy-file load succeeded), it issues the command exactly once —
no retry — and returns the command's reported result code verbatim, so it
returns `tool_rc_success` if and only if the command reported success. -/
theorem nv_space_define_propagates_define_rc (nvIndex attributes size : Nat)
    (policyFile : Option (List Nat)) (cap : Nat) (defineRc : tool_rc)
    (h : policy_load_ok policyFile cap = true) :
    (nv_space_define nvIndex attributes size policyFile cap defineRc).rc = defineRc ∧
    (nv_space_define nvIndex attributes size policyFile cap defineRc).defineCalls = 1 ∧
    ((nv_space_define nvIndex attributes size policyFile cap defineRc).rc = tool_rc.success ↔
      defineRc = tool_rc.success) := by
  cases policyFile with
  | none => simp [nv_space_define]
  | some bytes =>
    simp only [policy_load_ok] at h
    simp [nv_space_define, h]

/-- Witness for C3: a failing define status is returned verbatim after one
command. -/
theorem nv_space_define_propagates_define_rc_witness :
    policy_load_ok (some [1, 2]) 64 = true ∧
    ((nv_space_define 1 2 8 (some [1, 2]) 64 tool_rc.auth_error).rc = tool_rc.auth_error ∧
     (nv_space_define 1 2 8 (some [1, 2]) 64 tool_rc.auth_error).defineCalls = 1 ∧
     ((nv_space_define 1 2 8 (some [1, 2]) 64 tool_rc.auth_error).rc = tool_rc.success ↔
       tool_rc.auth_error = tool_rc.success)) :=
  ⟨by decide, nv_space_define_propagates_define_rc 1 2 8 (some [1, 2]) 64
    tool_rc.auth_error (by decide)⟩

/-- C5: in `activate_credential_and_output`, across every combination of
step outcomes the number of policy sessions opened equals the number
closed (zero sessions are left open), and in particular once
`tpm2_session_open` succeeds the session is closed exactly once before the
flow returns, whichever later step fails. -/
theorem activate_credential_session_balance (dataOk : Bool)
    (openRc endorseShandleRc : tool_rc) (policySecretRval : Nat)
    (keyShandleRc : tool_rc) (activateRval : Nat) (outputOk : Bool)
    (fromTpm : Nat → tool_rc) :
    (activate_credential_and_output dataOk openRc endorseShandleRc
        policySecretRval keyShandleRc activateRval outputOk fromTpm).sessionsOpened =
      (activate_credential_and_output dataOk openRc endorseShandleRc
        policySecretRval keyShandleRc activateRval outputOk fromTpm).sessionsClosed ∧
    (dataOk = true → openRc = tool_rc.success →
      (activate_credential_and_output dataOk openRc endorseShandleRc
        policySecretRval keyShandleRc activateRval outputOk fromTpm).sessionsClosed = 1) := by
  unfold activate_credential_and_output
  split_ifs <;> simp_all

/-- Witness for C5 at a run whose activate-credential command fails. -/
theorem activate_credential_session_balance_witness :
    ((activate_credential_and_output true tool_rc.success tool_rc.success 0
        tool_rc.success 5 true (fun _ => tool_rc.auth_error)).sessionsOpened =
      (activate_credential_and_output true tool_rc.success tool_rc.success 0
        tool_rc.success 5 true (fun _ => tool_rc.auth_error)).sessionsClosed) ∧
    ((true : Bool) = true → tool_rc.success = tool_rc.success →
      (activate_credential_and_output true tool_rc.success tool_rc.success 0
        tool_rc.success 5 true (fun _ => tool_rc.auth_error)).sessionsClosed = 1) :=
  activate_credential_session_balance true tool_rc.success tool_rc.success 0
    tool_rc.success 5 true (fun _ => tool_rc.auth_error)

/-- C6: defining an NV index with declared data size 0 logs the warning,
still issues the define-space command once with `dataSize` 0, and the
returned code is exactly the define command's result — never an error on
account of the size. -/
theorem nv_space_define_size_zero (nvIndex attributes : Nat)
    (policyFile : Option (List Nat)) (cap : Nat) (defineRc : tool_rc)
    (h : policy_load_ok policyFile cap = true) :
    (nv_space_define nvIndex attributes 0 policyFile cap defineRc).warnedSizeZero = true ∧
    (nv_space_define nvIndex attributes 0 policyFile cap defineRc).defineCalls = 1 ∧
    (∃ pub : NvPublicArea,
      (nv_space_define nvIndex attributes 0 policyFile cap defineRc).issued = some pub ∧
      pub.dataSize = 0) ∧
    (nv_space_define nvIndex attributes 0 policyFile cap defineRc).rc = defineRc := by
  cases policyFile with
  | none =>
    refine ⟨by simp [nv_space_define], by simp [nv_space_define], ?_, by simp [nv_space_define]⟩
    exact ⟨⟨nvIndex, TPM2_ALG_SHA256, attributes, [], 0⟩, by simp [nv_space_define], rfl⟩
  | some bytes =>
    simp only [policy_load_ok] at h
    refine ⟨by simp [nv_space_define, h], by simp [nv_space_define, h], ?_,
      by simp [nv_space_define, h]⟩
    exact ⟨⟨nvIndex, TPM2_ALG_SHA256, attributes, bytes, 0⟩, by simp [nv_space_define, h], rfl⟩

/-- Witness for C6 with no policy file and a succeeding define command. -/
theorem nv_space_define_size_zero_witness :
    policy_load_ok none 64 = true ∧
    ((nv_space_define 5 3 0 none 64 tool_rc.success).warnedSizeZero = true ∧
     (nv_space_define 5 3 0 none 64 tool_rc.success).defineCalls = 1 ∧
     (∃ pub : NvPublicArea,
       (nv_space_define 5 3 0 none 64 tool_rc.success).issued = some pub ∧
       pub.dataSize = 0) ∧
     (nv_space_define 5 3 0 none 64 tool_rc.success).rc = tool_rc.success) :=
  ⟨by decide, nv_space_define_size_zero 5 3 none 64 tool_rc.success (by decide)⟩

/-- C7: when a policy file is supplied to NV define, the authorization
policy placed in the public area handed to the define-space command equals
the file's bytes exactly, and a file larger than the digest-buffer
capacity makes the flow return a general error before issuing the command
(zero define calls). -/
theorem nv_space_define_policy_digest (nvIndex attributes size : Nat)
    (bytes : List Nat) (cap : Nat) (defineRc : tool_rc) :
    (nv_space_define nvIndex attributes size (some bytes) cap defineRc).issued =
      (if bytes.length ≤ cap then
        some ⟨nvIndex, TPM2_ALG_SHA256, attributes, bytes, size⟩
      else none) ∧
    (nv_space_define nvIndex attributes size (some bytes) cap defineRc).defineCalls =
      (if bytes.length ≤ cap then 1 else 0) ∧
    (nv_space_define nvIndex attributes size (some bytes) cap defineRc).rc =
      (if bytes.length ≤ cap then defineRc else tool_rc.general_error) := by
  by_cases hb : bytes.length ≤ cap <;>
    simp [nv_space_define, files_load_bytes_ok, hb]

/-- C9: the activate-credential tool's option gate returns an option error
exactly when all four of the credentialed-key context, credential-key
context, input credential, and output file are absent; if at least one is
supplied, the run proceeds to object loading despite the others missing. -/
theorem actcred_onrun_option_gate (hasCredentialedKey hasCredentialKey hasInput hasOutputFile : Bool) :
    ((actcred_tool_onrun hasCredentialedKey hasCredentialKey hasInput hasOutputFile).earlyResult =
        some tool_rc.option_error ↔
      (hasCredentialedKey = false ∧ hasCredentialKey = false ∧
        hasInput = false ∧ hasOutputFile = false)) ∧
    (actcred_tool_onrun hasCredentialedKey hasCredentialKey hasInput hasOutputFile).loadAttempted =
      (hasCredentialedKey || hasCredentialKey || hasInput || hasOutputFile) := by
  revert hasCredentialedKey hasCredentialKey hasInput hasOutputFile
  decide

/-- C10: when the evict-control command succeeds, a null `out_tr` pointer
makes `tpm2_ctx_mgmt_evictcontrol` close the newly returned handle before
returning (returning `tpm2_close`'s result, so no handle is leaked), while
a non-null pointer receives the new handle and `tool_rc_success` is
returned without closing it. -/
theorem tpm2_ctx_mgmt_evictcontrol_out_tr (newHandle : Nat) (outTrGiven : Bool)
    (fromTpm : Nat → tool_rc) (closeRc : tool_rc) :
    tpm2_ctx_mgmt_evictcontrol tool_rc.success 0 newHandle outTrGiven fromTpm closeRc =
      (if outTrGiven then ⟨false, some newHandle, tool_rc.success⟩
       else ⟨true, none, closeRc⟩) := by
  cases outTrGiven <;> simp [tpm2_ctx_mgmt_evictcontrol]
